import Mathlib

/-!
Shallow embedding of the `tailf` package (a follower that streams a file's
appended bytes, in the style of tail -f).  The embedding follows the
bufio-based implementation: the follower owns an open file handle, a
buffered reader staged on it, and (after a rotation) a splice buffer that a
multi-reader drains ahead of the freshly opened file.  Channels are modelled
by the observation a given call makes on them (a value was delivered, the
channel is closed, or nothing is pending), and external effects (stat, open,
close, seek, watcher setup) by their outcomes, so every operation is a pure
function on follower state.
-/

namespace Tailf

/-- Errors that flow through the follower: io.EOF, bufio.ErrBufferFull,
os.ErrClosed (reading a closed handle), the two terminal follower errors,
generic I/O errors, and the aggregate error built by Close when both
teardown steps fail. -/
inductive Err
  | eof
  | bufferFull
  | errClosed
  | fileTruncated (msg : String)
  | fileRemoved (msg : String)
  | ioErr (msg : String)
  | aggregate (w c : Err)
  deriving DecidableEq, Repr

/-- An open file handle: its content, the current read position, and an
optional failure every read on the handle reports (used to model a handle
that was closed underneath the reader). -/
structure FileState where
  content : List Nat
  pos : Nat
  readErr : Option Err
  deriving DecidableEq, Repr

/-- The follower state guarded by the mutex: the path, the open handle, the
bytes staged in the bufio reader, and the bytes pending in the rotation
splice buffer (the first arm of the io.MultiReader; empty when the reader
is just the bufio reader). -/
structure Follower where
  filename : String
  file : FileState
  bufBytes : List Nat
  rotBytes : List Nat
  deriving DecidableEq, Repr

/-- The bufio reader's internal buffer size. -/
def bufSize : Nat := 4096

/-- bufio.Reader.Peek(1): if a byte is already staged, nothing happens;
otherwise fill once from the underlying handle (up to bufSize bytes from
the current position), reporting io.EOF when the handle has nothing left
and the handle's failure when reads on it fail. -/
def peek1 (f : Follower) : Except Err Follower :=
  if 1 ≤ f.bufBytes.length then .ok f
  else
    match f.file.readErr with
    | some e => .error e
    | none =>
      if ((f.file.content.drop f.file.pos).take bufSize).isEmpty then
        .error .eof
      else
        .ok { f with
              bufBytes := (f.file.content.drop f.file.pos).take bufSize,
              file := { f.file with
                pos := f.file.pos +
                  ((f.file.content.drop f.file.pos).take bufSize).length } }

/-- The refill step at the top of Read/updateFile: Peek(1), tolerating
io.EOF and bufio.ErrBufferFull (any other error is propagated). -/
def refill (f : Follower) : Except Err Follower :=
  match peek1 f with
  | .ok g => .ok g
  | .error e => if e = .eof ∨ e = .bufferFull then .ok f else .error e

/-- What a non-blocking receive on the error channel observes. -/
inductive ErrcObs
  | delivered (e : Err)
  | closedChan
  | empty
  deriving DecidableEq, Repr

/-- What a blocking receive on the wake (notify) channel observes. -/
inductive WakeObs
  | woke
  | closedChan
  deriving DecidableEq, Repr

/-- Outcome of one Read call: count returned, error returned, the bytes
copied into the caller's buffer, the resulting follower state, and whether
the mutex taken at entry was released by the time Read returned. -/
structure ReadOutcome where
  n : Nat
  err : Option Err
  data : List Nat
  st : Follower
  lockReleased : Bool
  deriving DecidableEq, Repr

/-- imin, the two-argument minimum from the source. -/
def imin (a b : Nat) : Nat := if a < b then a else b

/-- The delivery step of Read: n, err := f.reader.Read(b[:imin(readable, len(b))]).
The reader is io.MultiReader(rotation buffer, bufio reader); a multi-reader
returns after the first arm that yields bytes, so a non-empty rotation
buffer satisfies the read alone, and otherwise the bufio reader hands over
staged bytes. Either way the error is nil. -/
def deliver (blen : Nat) (f : Follower) : ReadOutcome :=
  let readable := f.bufBytes.length
  let k := imin readable blen
  if f.rotBytes.isEmpty then
    { n := k, err := none, data := f.bufBytes.take k,
      st := { f with bufBytes := f.bufBytes.drop k }, lockReleased := true }
  else
    let m := imin k f.rotBytes.length
    { n := m, err := none, data := f.rotBytes.take m,
      st := { f with rotBytes := f.rotBytes.drop m }, lockReleased := true }

/-- Read after the refill step succeeded: measure readable bytes, check the
error channel non-blockingly, then either surface an error, block on the
wake channel when nothing is readable, or deliver buffered bytes. -/
def readAfterPeek (blen : Nat) (errc : ErrcObs) (wake : WakeObs)
    (f : Follower) : ReadOutcome :=
  let readable := f.bufBytes.length
  match errc with
  | .delivered e =>
    { n := 0, err := some e, data := [], st := f, lockReleased := true }
  | .closedChan =>
    if readable = 0 then
      { n := 0, err := some .eof, data := [], st := f, lockReleased := true }
    else deliver blen f
  | .empty =>
    if readable = 0 then
      match wake with
      | .woke =>
        { n := 0, err := none, data := [], st := f, lockReleased := true }
      | .closedChan =>
        { n := 0, err := some .eof, data := [], st := f, lockReleased := true }
    else deliver blen f

/-- Read: take the mutex, refill the bufio reader (the early return on a
refill failure does not release the mutex, exactly as in the source), then
proceed with the error-channel check, the wait, or the delivery. -/
def read (blen : Nat) (errc : ErrcObs) (wake : WakeObs)
    (f : Follower) : ReadOutcome :=
  match refill f with
  | .error e =>
    { n := 0, err := some e, data := [], st := f, lockReleased := false }
  | .ok g => readAfterPeek blen errc wake g

/-- Outcome of os.Stat on the followed path. -/
inductive StatRes
  | ok
  | notExist
  | statFail (e : Err)
  deriving DecidableEq, Repr

/-- The external outcomes a reopenFile call depends on: the stat of the
path, the close of the old handle, and the reopen of the path. -/
structure ReopenEnv where
  stat : StatRes
  closeErr : Option Err
  openRes : Except Err FileState
  deriving Repr

/-- reopenFile, reacting to a rename event: stat the path (gone means the
file was removed), close the old handle, reopen the path, then drain the
bufio reader into a splice buffer with io.Copy and stitch it ahead of a
fresh bufio reader over the new handle.  The copy runs after the old handle
was closed, so it always ends with the os.ErrClosed failure after yielding
the staged bytes; the guard compares the copied count against Buffered()
evaluated after the drain (which is 0), so whenever any bytes were staged
the call returns the copy failure instead of completing the splice. -/
def reopenFile (env : ReopenEnv) (f : Follower) : Except Err Follower :=
  match env.stat with
  | .notExist => .error (.fileRemoved f.filename)
  | .statFail e => .error e
  | .ok =>
    match env.closeErr with
    | some e => .error e
    | none =>
      match env.openRes with
      | .error e => .error e
      | .ok newFile =>
        if f.bufBytes.length ≠ 0 then .error .errClosed
        else .ok { f with file := newFile, bufBytes := [],
                          rotBytes := f.bufBytes }

/-- updateFile, reacting to a write event: Peek(1) to refill the staged
bytes, tolerating io.EOF and bufio.ErrBufferFull. -/
def updateFile (f : Follower) : Except Err Follower :=
  refill f

/-- The Op bitmask of a filesystem notification: the five documented flags. -/
structure FsOp where
  create : Bool
  remove : Bool
  rename : Bool
  write : Bool
  chmod : Bool
  deriving DecidableEq, Repr

/-- An event whose only flag is the metadata-change (chmod) flag. -/
def chmodOnly : FsOp :=
  { create := false, remove := false, rename := false,
    write := false, chmod := true }

/-- Message carried by the truncation error raised on a create event. -/
def truncMsg : String := "new file created with this name"

/-- Message carried by the removal error raised on a remove event. -/
def removeMsg : String := "file was removed"

/-- Result of handleFileEvent: an updated follower, an error for the error
channel, or the panic taken on an event outside the documented vocabulary. -/
inductive HandleResult
  | ok (f : Follower)
  | err (e : Err)
  | panicked
  deriving DecidableEq, Repr

/-- handleFileEvent: test the Op flags in source order — Create raises the
truncation error, Remove the removal error, Rename runs reopenFile, Write
runs updateFile, Chmod is dropped, anything else panics. -/
def handleFileEvent (ev : FsOp) (env : ReopenEnv) (f : Follower) :
    HandleResult :=
  if ev.create then .err (.fileTruncated truncMsg)
  else if ev.remove then .err (.fileRemoved removeMsg)
  else if ev.rename then
    match reopenFile env f with
    | .ok g => .ok g
    | .error e => .err e
  else if ev.write then
    match updateFile f with
    | .ok g => .ok g
    | .error e => .err e
  else if ev.chmod then .ok f
  else .panicked

/-- One input consumed by the followFile loop: a filesystem event (with the
outcomes its handling depends on), the events channel closing, a value on
the watcher's error channel (possibly nil), or that channel closing. -/
inductive LoopInput
  | event (ev : FsOp) (env : ReopenEnv)
  | eventsClosed
  | watchErr (e : Option Err)
  | errorsClosed

/-- State of the followFile loop after consuming a list of inputs: the
follower state, every error sent on the error channel, whether the loop
returned (or panicked), and whether its deferred closes of the wake and
error channels have run. -/
structure LoopState where
  f : Follower
  sent : List Err
  terminated : Bool
  channelsClosed : Bool

/-- followFile: consume inputs until one makes the loop return — a channel
closing, a non-nil watcher error (sent on the error channel first), or an
event whose handling fails (its error sent first) or panics.  The deferred
close of both signal channels runs whenever the loop stops, the panic path
included. -/
def loopRun (f : Follower) : List LoopInput → LoopState
  | [] => { f := f, sent := [], terminated := false, channelsClosed := false }
  | i :: rest =>
    match i with
    | .eventsClosed =>
      { f := f, sent := [], terminated := true, channelsClosed := true }
    | .errorsClosed =>
      { f := f, sent := [], terminated := true, channelsClosed := true }
    | .watchErr none => loopRun f rest
    | .watchErr (some e) =>
      { f := f, sent := [e], terminated := true, channelsClosed := true }
    | .event ev env =>
      match handleFileEvent ev env f with
      | .ok g => loopRun g rest
      | .err e =>
        { f := f, sent := [e], terminated := true, channelsClosed := true }
      | .panicked =>
        { f := f, sent := [], terminated := true, channelsClosed := true }

/-- The external outcomes a Follow call depends on: opening the file,
seeking to its end (only taken when fromStart is false), creating the
watcher, and adding the path to the watcher. -/
structure FollowEnv where
  openErr : Option Err
  seekErr : Option Err
  newWatcherErr : Option Err
  addErr : Option Err
  deriving DecidableEq, Repr

/-- What a Follow call did and returned: whether it succeeded, whether the
file was opened and whether it was closed again before returning, whether
the followFile loop was started, and the error handed back. -/
structure FollowResult where
  ok : Bool
  fileOpened : Bool
  fileClosed : Bool
  loopStarted : Bool
  retErr : Option Err
  deriving DecidableEq, Repr

/-- Follow: open the file; when fromStart is false, seek to the end and on
a seek failure close the file and return the error; create the watcher and
add the path, returning any failure as is (the opened file is left open on
those two paths); on success start the followFile loop. -/
def follow (env : FollowEnv) (fromStart : Bool) : FollowResult :=
  match env.openErr with
  | some e =>
    { ok := false, fileOpened := false, fileClosed := false,
      loopStarted := false, retErr := some e }
  | none =>
    match fromStart, env.seekErr with
    | false, some e =>
      { ok := false, fileOpened := true, fileClosed := true,
        loopStarted := false, retErr := some e }
    | _, _ =>
      match env.newWatcherErr with
      | some e =>
        { ok := false, fileOpened := true, fileClosed := false,
          loopStarted := false, retErr := some e }
      | none =>
        match env.addErr with
        | some e =>
          { ok := false, fileOpened := true, fileClosed := false,
            loopStarted := false, retErr := some e }
        | none =>
          { ok := true, fileOpened := true, fileClosed := false,
            loopStarted := true, retErr := none }

/-- A follower with three staged, undelivered bytes. -/
def sampleBuffered : Follower :=
  { filename := "x",
    file := { content := [1, 2, 3], pos := 3, readErr := none },
    bufBytes := [1, 2, 3], rotBytes := [] }

/-- A follower over an empty file with nothing staged. -/
def sampleEmpty : Follower :=
  { filename := "x",
    file := { content := [], pos := 0, readErr := none },
    bufBytes := [], rotBytes := [] }

/-- A follower whose handle was closed underneath it: reads on the handle
fail with os.ErrClosed and nothing is staged. -/
def sampleClosedHandle : Follower :=
  { filename := "x",
    file := { content := [], pos := 0, readErr := some .errClosed },
    bufBytes := [], rotBytes := [] }

/-- The file found at the path after a rotation. -/
def newRotatedFile : FileState :=
  { content := [7, 8], pos := 0, readErr := none }

/-- A reopen environment where stat, close and reopen all succeed. -/
def sampleReopenEnv : ReopenEnv :=
  { stat := .ok, closeErr := none, openRes := .ok newRotatedFile }

/-- A follower at the instant reopenFile drains it: one staged byte is
still undelivered, and the old handle was just closed by reopenFile. -/
def sampleRenamePending : Follower :=
  { filename := "x",
    file := { content := [9], pos := 1, readErr := some .errClosed },
    bufBytes := [9], rotBytes := [] }

/-- A follower at the instant reopenFile drains it, with nothing staged. -/
def sampleRenameClean : Follower :=
  { filename := "x",
    file := { content := [], pos := 0, readErr := some .errClosed },
    bufBytes := [], rotBytes := [] }

/-- An event whose only flag is Create. -/
def createOnly : FsOp :=
  { create := true, remove := false, rename := false,
    write := false, chmod := false }

/-- Follow outcomes where adding the path to the watcher fails. -/
def addFailEnv : FollowEnv :=
  { openErr := none, seekErr := none, newWatcherErr := none,
    addErr := some (.ioErr "add") }

/-- Follow outcomes where the seek to end of file fails. -/
def seekFailEnv : FollowEnv :=
  { openErr := none, seekErr := some (.ioErr "seek"),
    newWatcherErr := none, addErr := none }

/-- The two teardown steps Close performs. -/
inductive CloseStep
  | closeWatch
  | closeFile
  deriving DecidableEq, Repr

/-- Close: run watch.Close() then file.Close() unconditionally, and return
the one failure, the aggregate of both failures, or nil.  The first
component records the teardown steps executed, in order. -/
def closeFollower (werr cerr : Option Err) : List CloseStep × Option Err :=
  ([CloseStep.closeWatch, CloseStep.closeFile],
   match werr, cerr with
   | some w, none => some w
   | none, some c => some c
   | some w, some c => some (.aggregate w c)
   | none, none => none)

/-! Helper lemmas shared by the claim theorems. -/

/-- Peek(1) never touches the rotation splice buffer. -/
theorem peek1_rotBytes (f g : Follower) (h : peek1 f = .ok g) :
    g.rotBytes = f.rotBytes := by
  unfold peek1 at h
  split at h
  · cases h; rfl
  · split at h
    · cases h
    · split at h
      · cases h
      · cases h; rfl

/-- The refill step never touches the rotation splice buffer. -/
theorem refill_rotBytes (f g : Follower) (h : refill f = .ok g) :
    g.rotBytes = f.rotBytes := by
  unfold refill at h
  split at h
  · rename_i g1 hp
    cases h
    exact peek1_rotBytes f g hp
  · split at h
    · cases h; rfl
    · cases h

/-- A successful reopenFile leaves the rotation splice buffer empty: the
guard only lets the call through when nothing was staged, and the drained
buffer it installs is then empty. -/
theorem reopenFile_rotBytes (env : ReopenEnv) (f g : Follower)
    (h : reopenFile env f = .ok g) : g.rotBytes = [] := by
  unfold reopenFile at h
  split at h
  · cases h
  · cases h
  · split at h
    · cases h
    · split at h
      · cases h
      · split at h
        · cases h
        · rename_i hlen
          cases h
          simpa using List.length_eq_zero.mp (not_ne_iff.mp hlen)

/-- Event handling preserves an empty rotation splice buffer. -/
theorem handleFileEvent_rotBytes (ev : FsOp) (env : ReopenEnv)
    (f g : Follower) (h0 : f.rotBytes = [])
    (h : handleFileEvent ev env f = .ok g) : g.rotBytes = [] := by
  unfold handleFileEvent at h
  split at h
  · cases h
  · split at h
    · cases h
    · split at h
      · split at h
        · rename_i hre
          cases h
          exact reopenFile_rotBytes env f _ hre
        · cases h
      · split at h
        · split at h
          · rename_i hup
            cases h
            exact h0 ▸ refill_rotBytes f _ hup
          · cases h
        · split at h
          · cases h
            exact h0
          · cases h

/-- Read preserves an empty rotation splice buffer. -/
theorem read_rotBytes (blen : Nat) (errc : ErrcObs) (wake : WakeObs)
    (f : Follower) (h0 : f.rotBytes = []) :
    (read blen errc wake f).st.rotBytes = [] := by
  unfold read
  split
  · exact h0
  · rename_i g hre
    have hg : g.rotBytes = [] := h0 ▸ refill_rotBytes f g hre
    cases errc with
    | delivered e => simpa [readAfterPeek] using hg
    | closedChan =>
      by_cases h : g.bufBytes = []
      · simp [readAfterPeek, h, hg]
      · simp [readAfterPeek, h, deliver, hg]
    | empty =>
      by_cases h : g.bufBytes = []
      · cases wake <;> simp [readAfterPeek, h, hg]
      · simp [readAfterPeek, h, deliver, hg]

/-- The delivery step always reports a nil error and releases the mutex. -/
theorem deliver_err_lock (blen : Nat) (f : Follower) :
    (deliver blen f).err = none ∧ (deliver blen f).lockReleased = true := by
  unfold deliver
  by_cases h : f.rotBytes.isEmpty <;> simp [h]

/-- On a follower whose handle reads cleanly, the refill step succeeds. -/
theorem refill_ok_of_clean (g : Follower) (hg : g.file.readErr = none) :
    ∃ g2, refill g = .ok g2 := by
  by_cases h1 : 1 ≤ g.bufBytes.length
  · exact ⟨g, by simp [refill, peek1, h1]⟩
  · by_cases h2 : ((g.file.content.drop g.file.pos).take bufSize).isEmpty
    · exact ⟨g, by simp [refill, peek1, h1, hg, h2]⟩
    · refine ⟨{ g with
          bufBytes := (g.file.content.drop g.file.pos).take bufSize,
          file := { g.file with
            pos := g.file.pos +
              ((g.file.content.drop g.file.pos).take bufSize).length } }, ?_⟩
      simp [refill, peek1, h1, hg, h2]

/-- C1: when the refill step leaves readable bytes staged (and the error
channel has not delivered a terminal value), Read copies exactly
min(buffered, len(b)) bytes into the caller's buffer and returns that
count with a nil error, releasing the mutex.  The rotation splice buffer
is empty on every reachable state (see reopenFile_rotBytes,
handleFileEvent_rotBytes, read_rotBytes). -/
theorem read_copies_min_of_buffered (blen : Nat) (errc : ErrcObs)
    (wake : WakeObs) (f g : Follower) (hre : refill f = .ok g)
    (hrot : g.rotBytes = []) (hpos : 0 < g.bufBytes.length)
    (herrc : errc = ErrcObs.empty ∨ errc = ErrcObs.closedChan) :
    (read blen errc wake f).n = imin g.bufBytes.length blen ∧
    (read blen errc wake f).err = none ∧
    (read blen errc wake f).data =
      g.bufBytes.take (imin g.bufBytes.length blen) ∧
    (read blen errc wake f).lockReleased = true := by
  have hlen : g.bufBytes.length ≠ 0 := Nat.pos_iff_ne_zero.mp hpos
  rcases herrc with h | h <;> subst h <;>
    simp [read, hre, readAfterPeek, deliver, hrot, hlen]

/-- Witness for C1 at a concrete follower with three staged bytes and a
two-byte caller buffer. -/
theorem read_copies_min_of_buffered_witness :
    (read 2 .empty .woke sampleBuffered).n =
      imin sampleBuffered.bufBytes.length 2 ∧
    (read 2 .empty .woke sampleBuffered).err = none ∧
    (read 2 .empty .woke sampleBuffered).data =
      sampleBuffered.bufBytes.take (imin sampleBuffered.bufBytes.length 2) ∧
    (read 2 .empty .woke sampleBuffered).lockReleased = true :=
  read_copies_min_of_buffered 2 .empty .woke sampleBuffered sampleBuffered
    rfl rfl (by decide) (Or.inl rfl)

/-- C2: a rename event does not preserve buffered-but-undelivered bytes.
With one staged undelivered byte, reopenFile returns the os.ErrClosed
failure of the drain (a terminal error: the byte is never delivered),
because the old handle is closed before the drain and the guard compares
the copied count against Buffered() evaluated after the drain.  Only when
nothing was staged does the reopen complete — and then the installed
splice buffer is empty. -/
theorem reopenFile_drops_pending_bytes :
    reopenFile sampleReopenEnv sampleRenamePending = .error .errClosed ∧
    reopenFile sampleReopenEnv sampleRenameClean =
      .ok { filename := "x", file := newRotatedFile,
            bufBytes := [], rotBytes := [] } :=
  ⟨rfl, rfl⟩

/-- C3 counterexample: when adding the path to the watcher fails after the
file was opened, Follow returns the error but leaves the file open — the
claim requires the file to be closed before returning. -/
theorem follow_add_failure_leaves_file_open :
    (follow addFailEnv true).retErr = some (.ioErr "add") ∧
    (follow addFailEnv true).fileOpened = true ∧
    (follow addFailEnv true).fileClosed = false :=
  ⟨rfl, rfl, rfl⟩

/-- C3 amended: every construction failure is returned synchronously and
no event loop is started; the opened file is closed before returning on a
seek failure, but on a watcher-creation or watcher-add failure the opened
file is left open. -/
theorem follow_failure_behavior (env : FollowEnv) (fromStart : Bool) :
    ((follow env fromStart).retErr.isSome →
      (follow env fromStart).ok = false ∧
      (follow env fromStart).loopStarted = false) ∧
    (env.openErr = none → fromStart = false → env.seekErr.isSome →
      (follow env fromStart).fileClosed = true) ∧
    (env.openErr = none → (fromStart = true ∨ env.seekErr = none) →
      (env.newWatcherErr.isSome ∨ env.addErr.isSome) →
      (follow env fromStart).fileOpened = true ∧
      (follow env fromStart).fileClosed = false ∧
      (follow env fromStart).retErr.isSome) := by
  obtain ⟨o, s, w, a⟩ := env
  cases o <;> cases s <;> cases w <;> cases a <;> cases fromStart <;>
    simp [follow]

/-- Witness for C3 amended: a failing seek closes the file and starts no
loop; a failing watcher-add leaves the file open. -/
theorem follow_failure_behavior_witness :
    (follow seekFailEnv false).ok = false ∧
    (follow seekFailEnv false).loopStarted = false ∧
    (follow seekFailEnv false).fileClosed = true ∧
    (follow addFailEnv true).fileClosed = false :=
  ⟨((follow_failure_behavior seekFailEnv false).1 rfl).1,
   ((follow_failure_behavior seekFailEnv false).1 rfl).2,
   (follow_failure_behavior seekFailEnv false).2.1 rfl rfl rfl,
   ((follow_failure_behavior addFailEnv true).2.2 rfl (Or.inl rfl)
      (Or.inr rfl)).2.1⟩

/-- C4: after the error channel was closed without delivering a value,
Read still delivers staged bytes (nil error, min(buffered, len(b)) count)
while any remain, and reports end-of-stream only once nothing is staged. -/
theorem read_drains_before_eof_after_close (blen : Nat) (wake : WakeObs)
    (f g : Follower) (hre : refill f = .ok g) (hrot : g.rotBytes = []) :
    (0 < g.bufBytes.length →
      (read blen .closedChan wake f).err = none ∧
      (read blen .closedChan wake f).n = imin g.bufBytes.length blen) ∧
    (g.bufBytes.length = 0 →
      (read blen .closedChan wake f).n = 0 ∧
      (read blen .closedChan wake f).err = some .eof) := by
  constructor
  · intro hpos
    have hlen : g.bufBytes.length ≠ 0 := Nat.pos_iff_ne_zero.mp hpos
    simp [read, hre, readAfterPeek, deliver, hrot, hlen]
  · intro h0
    simp [read, hre, readAfterPeek, List.length_eq_zero.mp h0]

/-- Witness for C4 at a follower with three staged bytes and at a drained
follower. -/
theorem read_drains_before_eof_after_close_witness :
    ((read 2 .closedChan .woke sampleBuffered).err = none ∧
     (read 2 .closedChan .woke sampleBuffered).n =
       imin sampleBuffered.bufBytes.length 2) ∧
    ((read 1 .closedChan .woke sampleEmpty).n = 0 ∧
     (read 1 .closedChan .woke sampleEmpty).err = some .eof) :=
  ⟨(read_drains_before_eof_after_close 2 .woke sampleBuffered sampleBuffered
      rfl rfl).1 (by decide),
   (read_drains_before_eof_after_close 1 .woke sampleEmpty sampleEmpty
      rfl rfl).2 rfl⟩

/-- C5: an event carrying only the metadata-change (Chmod) flag is
dropped: handleFileEvent returns the follower unchanged, with no error and
no panic. -/
theorem chmod_event_ignored (env : ReopenEnv) (f : Follower) :
    handleFileEvent chmodOnly env f = .ok f := by
  simp [handleFileEvent, chmodOnly]

/-- C6: a Read that finds nothing staged and no terminal condition
releases the mutex and blocks on the wake channel; a delivered wake yields
the zero-length, nil-error retry result, and a closed wake channel yields
end-of-stream. -/
theorem read_blocks_when_empty (blen : Nat) (f : Follower)
    (hpeek : peek1 f = .error .eof) :
    read blen .empty .woke f =
      { n := 0, err := none, data := [], st := f, lockReleased := true } ∧
    read blen .empty .closedChan f =
      { n := 0, err := some .eof, data := [], st := f,
        lockReleased := true } := by
  have hbuf : f.bufBytes = [] := by
    by_contra hne
    have h1 : 1 ≤ f.bufBytes.length :=
      Nat.one_le_iff_ne_zero.mpr (fun h => hne (List.length_eq_zero.mp h))
    simp [peek1, h1] at hpeek
  have hre : refill f = .ok f := by simp [refill, hpeek]
  constructor <;> simp [read, hre, readAfterPeek, hbuf]

/-- Witness for C6 at a follower over an empty file. -/
theorem read_blocks_when_empty_witness :
    read 1 .empty .woke sampleEmpty =
      { n := 0, err := none, data := [], st := sampleEmpty,
        lockReleased := true } ∧
    read 1 .empty .closedChan sampleEmpty =
      { n := 0, err := some .eof, data := [], st := sampleEmpty,
        lockReleased := true } :=
  read_blocks_when_empty 1 sampleEmpty rfl

/-- C7: an event with the Create flag set makes handleFileEvent return the
file-truncated terminal error (the loop then sends it on the error
channel), and a Read observing that delivered value surfaces it as the
read's error with a zero count — the follower never resyncs to the new
file. -/
theorem create_event_truncates (ev : FsOp) (env : ReopenEnv) (f : Follower)
    (hc : ev.create = true) :
    handleFileEvent ev env f = .err (.fileTruncated truncMsg) ∧
    (∀ blen wake g, g.file.readErr = none →
      (read blen (.delivered (.fileTruncated truncMsg)) wake g).n = 0 ∧
      (read blen (.delivered (.fileTruncated truncMsg)) wake g).err =
        some (.fileTruncated truncMsg)) := by
  constructor
  · simp [handleFileEvent, hc]
  · intro blen wake g hg
    obtain ⟨g2, hre⟩ := refill_ok_of_clean g hg
    simp [read, hre, readAfterPeek]

/-- Witness for C7 on a pure Create event and a clean follower. -/
theorem create_event_truncates_witness :
    handleFileEvent createOnly sampleReopenEnv sampleBuffered =
      .err (.fileTruncated truncMsg) ∧
    (read 1 (.delivered (.fileTruncated truncMsg)) .woke sampleEmpty).err =
      some (.fileTruncated truncMsg) :=
  ⟨(create_event_truncates createOnly sampleReopenEnv sampleBuffered rfl).1,
   ((create_event_truncates createOnly sampleReopenEnv sampleBuffered
       rfl).2 1 .woke sampleEmpty rfl).2⟩

/-- C8: Close always executes both teardown steps, the watch close and the
file close, in that order and unconditionally, and when both fail it
returns the error aggregating the two failures. -/
theorem close_attempts_both_and_aggregates (werr cerr : Option Err) :
    (closeFollower werr cerr).1 =
      [CloseStep.closeWatch, CloseStep.closeFile] ∧
    (∀ w c, werr = some w → cerr = some c →
      (closeFollower werr cerr).2 = some (.aggregate w c)) := by
  refine ⟨rfl, ?_⟩
  rintro w c rfl rfl
  rfl

/-- Witness for C8 with both teardown steps failing. -/
theorem close_attempts_both_and_aggregates_witness :
    (closeFollower (some (.ioErr "w")) (some (.ioErr "c"))).1 =
      [CloseStep.closeWatch, CloseStep.closeFile] ∧
    (closeFollower (some (.ioErr "w")) (some (.ioErr "c"))).2 =
      some (.aggregate (.ioErr "w") (.ioErr "c")) :=
  ⟨(close_attempts_both_and_aggregates (some (.ioErr "w"))
      (some (.ioErr "c"))).1,
   (close_attempts_both_and_aggregates (some (.ioErr "w"))
      (some (.ioErr "c"))).2 (.ioErr "w") (.ioErr "c") rfl rfl⟩

/-- The followFile loop sends at most one error on the error channel, and
whenever it has sent one it has returned and its deferred closes of both
signal channels have run. -/
theorem loopRun_sent_spec (f : Follower) (inputs : List LoopInput) :
    (loopRun f inputs).sent.length ≤ 1 ∧
    ((loopRun f inputs).sent ≠ [] →
      (loopRun f inputs).terminated = true ∧
      (loopRun f inputs).channelsClosed = true) := by
  induction inputs generalizing f with
  | nil => simp [loopRun]
  | cons i rest ih =>
    cases i with
    | event ev env =>
      cases h : handleFileEvent ev env f with
      | ok g => simpa [loopRun, h] using ih g
      | err e => simp [loopRun, h]
      | panicked => simp [loopRun, h]
    | eventsClosed => simp [loopRun]
    | watchErr e =>
      cases e with
      | none => simpa [loopRun] using ih f
      | some e2 => simp [loopRun]
    | errorsClosed => simp [loopRun]

/-- C9: a terminal error is delivered at most once — over any input
history the loop sends at most one error, and having sent one it has
stopped with both signal channels closed; every Read made once the error
channel is closed (on a follower whose handle reads cleanly) returns
either a nil error or end-of-stream, never the sent error again. -/
theorem terminal_error_sent_once (f : Follower) (inputs : List LoopInput) :
    (loopRun f inputs).sent.length ≤ 1 ∧
    ((loopRun f inputs).sent ≠ [] →
      (loopRun f inputs).terminated = true ∧
      (loopRun f inputs).channelsClosed = true) ∧
    (∀ blen wake g, g.file.readErr = none →
      (read blen .closedChan wake g).err = none ∨
      (read blen .closedChan wake g).err = some .eof) := by
  refine ⟨(loopRun_sent_spec f inputs).1, (loopRun_sent_spec f inputs).2, ?_⟩
  intro blen wake g hg
  obtain ⟨g2, hre⟩ := refill_ok_of_clean g hg
  by_cases h0 : g2.bufBytes = []
  · right
    simp [read, hre, readAfterPeek, h0]
  · left
    simp only [read, hre, readAfterPeek]
    simpa [h0] using (deliver_err_lock blen g2).1

/-- Witness for C9: a single watcher error is sent once with the channels
then closed, and a Read after the close observes end-of-stream. -/
theorem terminal_error_sent_once_witness :
    (loopRun sampleEmpty [LoopInput.watchErr (some (.ioErr "w"))]).sent.length
      ≤ 1 ∧
    (loopRun sampleEmpty
      [LoopInput.watchErr (some (.ioErr "w"))]).channelsClosed = true ∧
    ((read 1 .closedChan .woke sampleEmpty).err = none ∨
     (read 1 .closedChan .woke sampleEmpty).err = some .eof) :=
  ⟨(terminal_error_sent_once sampleEmpty
      [LoopInput.watchErr (some (.ioErr "w"))]).1,
   ((terminal_error_sent_once sampleEmpty
      [LoopInput.watchErr (some (.ioErr "w"))]).2.1 (by simp [loopRun])).2,
   (terminal_error_sent_once sampleEmpty
      [LoopInput.watchErr (some (.ioErr "w"))]).2.2 1 .woke sampleEmpty rfl⟩

/-- C10: the early return taken when the refill Peek fails with an error
other than io.EOF and bufio.ErrBufferFull leaves the mutex locked — here
on a follower whose handle was closed underneath it, Read returns the
os.ErrClosed failure without having released the lock taken at entry. -/
theorem read_peek_failure_keeps_lock :
    (read 1 .empty .woke sampleClosedHandle).err = some .errClosed ∧
    (read 1 .empty .woke sampleClosedHandle).lockReleased = false ∧
    (read 1 .empty .woke sampleEmpty).lockReleased = true :=
  ⟨rfl, rfl, rfl⟩

end Tailf
